import Mathlib

/-!
Shallow embedding of `src/api/predict.py` (MPI price-prediction API).

Conventions of the embedding:
* Python floats are modelled as exact rationals (`ℚ`).  All prices produced
  by the simulation branch are multiples of 1/2, hence exact in both worlds.
* `round(x, 2)` is modelled by `pyRound2`; the Python/binary tie-breaking
  difference never arises for the values handled by the claims.
* The external collaborator `predict_single_item` is an arbitrary function
  supplied through an environment record; it may raise (`ModelOutcome.raises`)
  or return a value, where `ModelOutcome.returns none` models a Python `None`.
* `datetime.now().isoformat()` is modelled by an explicit `now : String`
  argument threaded into every place the source reads the clock.
* The module-level flag `MODEL_LOADED` is the `modelLoaded` field of the
  environment record.
-/

namespace MpiApi

/-- Python `round(q, 2)`: round to 2 decimal places.  (Mathlib `round` is
round-half-up while CPython rounds half to even on binary floats; no value
appearing in this development is a tie, so the two agree here.) -/
def pyRound2 (q : ℚ) : ℚ := (round (q * 100) : ℤ) / 100

/-- The five identity fields of a prediction request, after trimming. -/
structure Identity where
  product_type : String
  tg_code : String
  country_region : String
  country : String
  industry : String
  deriving Repr, DecidableEq

/-- Result of one call of the external collaborator `predict_single_item`:
it either raises an exception or returns a value, where `returns none`
models a Python `None` return. -/
inductive ModelOutcome where
  | raises : ModelOutcome
  | returns : Option ℚ → ModelOutcome
  deriving Repr, DecidableEq

/-- Process-wide environment: the `MODEL_LOADED` flag chosen at import time
and the external forecasting collaborator. -/
structure Env where
  modelLoaded : Bool
  model : Identity → ℕ → ℕ → ModelOutcome

/-- One element of the `predictions` list built by
`Handler.generate_predictions` (source lines 219-232). -/
structure Prediction where
  period : ℕ
  year : ℕ
  month : ℕ
  date : String
  predicted_price : Option ℚ
  currency : String
  error : Option String
  deriving Repr, DecidableEq

/-- The `statistics` object (source lines 234-253). -/
structure Statistics where
  min_price : Option ℚ
  max_price : Option ℚ
  avg_price : Option ℚ
  price_trend : String
  deriving Repr, DecidableEq

/-- The success response assembled at source lines 256-279. -/
structure Response where
  success : Bool
  model_used : String
  horizon_window : ℕ
  total_predictions : ℕ
  successful_predictions : ℕ
  failed_predictions : ℕ
  input_parameters : Identity
  price_statistics : Statistics
  predictions : List Prediction
  timestamp : String
  note : Option String
  deriving Repr, DecidableEq

/-- Zero-padded month of the f-string `f"{year}-{month:02d}"`. -/
def pad2 (m : ℕ) : String := if m < 10 then "0" ++ Nat.repr m else Nat.repr m

/-- The date label `f"{year}-{month:02d}"` (source line 223). -/
def dateLabel (year month : ℕ) : String := Nat.repr year ++ "-" ++ pad2 month

/-- Body of the `for month_offset in range(horizon_window)` loop
(source lines 191-232): calendar derivation, one forecast, and assembly of
the prediction object.  `float(predicted_price) if predicted_price else None`
is a truthiness test, so a returned `None` and a returned zero both yield
`price_value = None`. -/
def mkPrediction (env : Env) (ident : Identity) (month_offset : ℕ) : Prediction :=
  let year : ℕ := 2024 + month_offset / 12
  let month : ℕ := month_offset % 12 + 1
  let price_value : Option ℚ :=
    if env.modelLoaded then
      match env.model ident year month with
      | .raises => none
      | .returns none => none
      | .returns (some q) => if q = 0 then none else some q
    else
      some (pyRound2 (20 + (month_offset : ℚ) * (1 / 2)))
  { period := month_offset + 1
    year := year
    month := month
    date := dateLabel year month
    predicted_price := price_value
    currency := "USD"
    error := if price_value = none then some "Prediction failed for this period" else none }

/-- Source line 235: `[p for p in predictions if p.get("predicted_price") is not None]`. -/
def successful_of (predictions : List Prediction) : List Prediction :=
  predictions.filter (fun p => p.predicted_price.isSome)

/-- Source line 238: `[p["predicted_price"] for p in successful_predictions]`. -/
def pricesOf (predictions : List Prediction) : List ℚ :=
  (successful_of predictions).filterMap (fun p => p.predicted_price)

/-- Statistics over the successful predictions (source lines 234-253).
`min`/`max`/`sum` over a Python list are left folds over its elements;
`prices[-1]` is the last element and `prices[0]` the first.  The source
branches on `successful_predictions` being nonempty; every successful
prediction contributes exactly one price, so matching on the price list is
the same test. -/
def compute_statistics (predictions : List Prediction) : Statistics :=
  match pricesOf predictions with
  | [] =>
    { min_price := none
      max_price := none
      avg_price := none
      price_trend := "unknown" }
  | p :: ps =>
    { min_price := some (ps.foldl min p)
      max_price := some (ps.foldl max p)
      avg_price := some (pyRound2 ((p :: ps).sum / (p :: ps).length))
      price_trend :=
        if 1 < (p :: ps).length ∧ p < ps.getLastD p then "increasing"
        else if 1 < (p :: ps).length ∧ ps.getLastD p < p then "decreasing"
        else "stable" }

/-- `Handler.generate_predictions` (source lines 171-279). -/
def generate_predictions (env : Env) (ident : Identity) (horizon_window : ℕ)
    (now : String) : Response :=
  let predictions : List Prediction :=
    (List.range horizon_window).map (mkPrediction env ident)
  let successful_predictions : List Prediction := successful_of predictions
  { success := true
    model_used := if env.modelLoaded then "tensorflow" else "simulation"
    horizon_window := horizon_window
    total_predictions := predictions.length
    successful_predictions := successful_predictions.length
    failed_predictions := predictions.length - successful_predictions.length
    input_parameters := ident
    price_statistics := compute_statistics predictions
    predictions := predictions
    timestamp := now
    note :=
      if env.modelLoaded then none
      else some "Using simulated data. Deploy with model files for real predictions." }

/-- A JSON scalar that may appear as the `horizon_window` value of the raw
payload; `int(·)` behaves differently on each shape. -/
inductive PyVal where
  | pyStr : String → PyVal
  | pyInt : ℤ → PyVal
  | pyFloat : ℚ → PyVal
  | pyBool : Bool → PyVal
  deriving Repr, DecidableEq

/-- Python `int(float)`: truncation toward zero. -/
def pyTrunc (q : ℚ) : ℤ := if 0 ≤ q then ⌊q⌋ else ⌈q⌉

/-- Python `str.strip()`: remove leading and trailing whitespace.  Defined
structurally on the character list so proofs can evaluate it.  (`.strip()`
also removes a few rarer Unicode space characters, none of which occur in
this development.) -/
def pyStrip (s : String) : String :=
  ⟨((s.data.dropWhile Char.isWhitespace).reverse.dropWhile Char.isWhitespace).reverse⟩

/-- Numeric value of a digit run, most significant first. -/
def digitsVal (l : List Char) : ℕ :=
  l.foldl (fun acc c => acc * 10 + (c.toNat - 48)) 0

/-- Python `int(str)`: optional surrounding whitespace, optional sign, then a
nonempty digit run; anything else raises `ValueError` (modelled as `none`). -/
def pyIntOfString (s : String) : Option ℤ :=
  match (pyStrip s).data with
  | '-' :: ds => if ds ≠ [] ∧ ds.all Char.isDigit then some (-(digitsVal ds : ℤ)) else none
  | '+' :: ds => if ds ≠ [] ∧ ds.all Char.isDigit then some (digitsVal ds : ℤ) else none
  | ds => if ds ≠ [] ∧ ds.all Char.isDigit then some (digitsVal ds : ℤ) else none

/-- Python `int(value)` for the shapes a JSON `horizon_window` can take:
`none` models the `ValueError`/`TypeError` caught at source line 149. -/
def pyToInt : PyVal → Option ℤ
  | .pyStr s => pyIntOfString s
  | .pyInt n => some n
  | .pyFloat q => some (pyTrunc q)
  | .pyBool b => some (if b then 1 else 0)

/-- The raw inbound JSON payload, restricted to the keys the handler reads:
`none` models an absent key (`data.get` default). -/
structure Payload where
  product_type : Option String
  tg_code : Option String
  country_region : Option String
  country : Option String
  industry : Option String
  horizon_window : Option PyVal
  deriving Repr, DecidableEq

/-- Outcome of `Handler.process_prediction_request`: either an error object
`{success: false, error, timestamp}` or the success response. -/
inductive ApiResult where
  | failure : String → String → ApiResult
  | ok : Response → ApiResult
  deriving Repr, DecidableEq

/-- `Handler.process_prediction_request` (source lines 101-169): trim the
five identity fields, collect every missing one, then convert and
range-check `horizon_window`, then delegate to `generate_predictions`. -/
def process_prediction_request (env : Env) (data : Payload) (now : String) :
    ApiResult :=
  let product_type := pyStrip (data.product_type.getD "")
  let tg_code := pyStrip (data.tg_code.getD "")
  let country_region := pyStrip (data.country_region.getD "")
  let country := pyStrip (data.country.getD "")
  let industry := pyStrip (data.industry.getD "")
  let missing_params : List String :=
    (if product_type = "" then ["product_type"] else []) ++
    (if tg_code = "" then ["tg_code"] else []) ++
    (if country_region = "" then ["country_region"] else []) ++
    (if country = "" then ["country"] else []) ++
    (if industry = "" then ["industry"] else [])
  if missing_params ≠ [] then
    .failure ("Missing required parameters: " ++ String.intercalate ", " missing_params) now
  else
    match pyToInt (data.horizon_window.getD (.pyInt 1)) with
    | none => .failure "horizon_window must be a valid integer" now
    | some h =>
      if h < 1 ∨ 24 < h then
        .failure "horizon_window must be between 1 and 24 months" now
      else
        .ok (generate_predictions env
          { product_type := product_type
            tg_code := tg_code
            country_region := country_region
            country := country
            industry := industry } h.toNat now)

/-- Declarative restatement of the missing-field collection: the sublist of
the five canonical names whose payload value is absent or trims to empty. -/
def missing_of (data : Payload) : List String :=
  [("product_type", data.product_type), ("tg_code", data.tg_code),
   ("country_region", data.country_region), ("country", data.country),
   ("industry", data.industry)].filterMap
    (fun nv => if pyStrip (nv.2.getD "") = "" then some nv.1 else none)

/-- A response with the timestamp field cleared, used to compare two runs
up to the clock reading. -/
def stripTimestamp (r : Response) : Response := { r with timestamp := "" }

/-- Concrete environment: model import failed, simulation fallback active. -/
def envSim : Env := ⟨false, fun _ _ _ => .raises⟩

/-- Concrete environment: model loaded, collaborator always returns 0.0. -/
def envZero : Env := ⟨true, fun _ _ _ => .returns (some 0)⟩

/-- Concrete environment: model loaded, collaborator raises for month 2 and
returns 5.0 elsewhere. -/
def envMix : Env := ⟨true, fun _ _ m => if m = 2 then .raises else .returns (some 5)⟩

/-- Concrete identity used by the witnesses. -/
def identDemo : Identity := ⟨"steel", "TG1", "EMEA", "Germany", "Automotive"⟩

/-- Concrete fully-populated payload used by the witnesses. -/
def payloadDemo : Payload :=
  ⟨some "steel", some "TG1", some "EMEA", some "Germany", some "Automotive",
    some (.pyInt 3)⟩

/-! ## Theorems -/

/-- The i-th element of the prediction list is the prediction built for
month offset i. -/
theorem predictions_get? (env : Env) (ident : Identity) (h : ℕ) (now : String)
    {i : ℕ} (hi : i < h) :
    (generate_predictions env ident h now).predictions.get? i =
      some (mkPrediction env ident i) := by
  simp only [generate_predictions, List.get?_eq_getElem?, List.getElem?_map,
    List.getElem?_range hi]
  rfl

/-- The prediction list always has one element per month offset. -/
theorem predictions_length (env : Env) (ident : Identity) (h : ℕ) (now : String) :
    (generate_predictions env ident h now).predictions.length = h := by
  simp [generate_predictions]

/-- Claim C1: for every valid request (identity fields non-blank,
horizon_window an integer in [1,24]), the predictions list has length
exactly horizon_window and the i-th outcome (0-based) has period index
i+1, so the list is ordered by strictly ascending period index with no
gaps. -/
theorem claim_C1 (env : Env) (ident : Identity) (h : ℕ) (now : String)
    (h1 : 1 ≤ h) (h2 : h ≤ 24) :
    (generate_predictions env ident h now).predictions.length = h ∧
    ∀ i, i < h →
      ((generate_predictions env ident h now).predictions.get? i).map
        Prediction.period = some (i + 1) := by
  refine ⟨predictions_length env ident h now, fun i hi => ?_⟩
  rw [predictions_get? env ident h now hi]
  rfl

/-- Witness for C1 at env = envSim, h = 3. -/
theorem claim_C1_witness :
    (generate_predictions envSim identDemo 3 "T").predictions.length = 3 ∧
    ((generate_predictions envSim identDemo 3 "T").predictions.get? 2).map
      Prediction.period = some 3 :=
  ⟨(claim_C1 envSim identDemo 3 "T" (by decide) (by decide)).1,
   (claim_C1 envSim identDemo 3 "T" (by decide) (by decide)).2 2 (by decide)⟩

/-- Claim C2: period index p derives year = 2024 + ((p-1) div 12) and
month = ((p-1) mod 12) + 1, with the zero-padded "YYYY-MM" date label;
in particular period 1 maps to (2024, 1), period 12 to (2024, 12),
period 13 to (2025, 1) and period 24 to (2025, 12). -/
theorem claim_C2 (env : Env) (ident : Identity) (h : ℕ) (now : String) (p : ℕ)
    (hp1 : 1 ≤ p) (hp2 : p ≤ h) :
    (((generate_predictions env ident h now).predictions.get? (p - 1)).map
        (fun o => (o.period, o.year, o.month, o.date)) =
      some (p, 2024 + (p - 1) / 12, (p - 1) % 12 + 1,
        dateLabel (2024 + (p - 1) / 12) ((p - 1) % 12 + 1))) ∧
    (((generate_predictions env ident 24 now).predictions.get? 0).map
        (fun o => (o.year, o.month, o.date)) = some (2024, 1, "2024-01")) ∧
    (((generate_predictions env ident 24 now).predictions.get? 11).map
        (fun o => (o.year, o.month, o.date)) = some (2024, 12, "2024-12")) ∧
    (((generate_predictions env ident 24 now).predictions.get? 12).map
        (fun o => (o.year, o.month, o.date)) = some (2025, 1, "2025-01")) ∧
    (((generate_predictions env ident 24 now).predictions.get? 23).map
        (fun o => (o.year, o.month, o.date)) = some (2025, 12, "2025-12")) := by
  have hlt : p - 1 < h := by omega
  refine ⟨?_, ?_, ?_, ?_, ?_⟩
  · rw [predictions_get? env ident h now hlt]
    simp only [Option.map_some']
    have hper : p - 1 + 1 = p := by omega
    simp [mkPrediction, hper]
  · rw [predictions_get? env ident 24 now (by omega)]
    rfl
  · rw [predictions_get? env ident 24 now (by omega)]
    rfl
  · rw [predictions_get? env ident 24 now (by omega)]
    rfl
  · rw [predictions_get? env ident 24 now (by omega)]
    rfl

/-- Witness for C2 at p = 13, h = 24: the rollover into 2025. -/
theorem claim_C2_witness :
    ((generate_predictions envSim identDemo 24 "T").predictions.get? 12).map
        (fun o => (o.period, o.year, o.month, o.date)) =
      some (13, 2025, 1, dateLabel 2025 1) := by
  have := (claim_C2 envSim identDemo 24 "T" 13 (by decide) (by decide)).1
  simpa using this

/-- The successful sublist is never longer than the full prediction list. -/
theorem successful_le_total (env : Env) (ident : Identity) (h : ℕ) (now : String) :
    (generate_predictions env ident h now).successful_predictions ≤
      (generate_predictions env ident h now).total_predictions := by
  simp only [generate_predictions, successful_of]
  exact List.length_filter_le _ _

/-- Claim C3: with the model provider active, a collaborator exception or a
collaborator returning no value on one period yields a PeriodOutcome for
that period with no price and error "Prediction failed for this period",
while every remaining period is still processed (the list keeps length
horizon_window), the result keeps success = true, and failed =
total - successful; a per-period failure never aborts the batch. -/
theorem claim_C3 (env : Env) (ident : Identity) (h : ℕ) (now : String)
    (hm : env.modelLoaded = true) :
    (generate_predictions env ident h now).predictions.length = h ∧
    (generate_predictions env ident h now).success = true ∧
    (generate_predictions env ident h now).successful_predictions ≤
      (generate_predictions env ident h now).total_predictions ∧
    (generate_predictions env ident h now).failed_predictions =
      (generate_predictions env ident h now).total_predictions -
        (generate_predictions env ident h now).successful_predictions ∧
    ∀ i, i < h →
      (env.model ident (2024 + i / 12) (i % 12 + 1) = .raises ∨
        env.model ident (2024 + i / 12) (i % 12 + 1) = .returns none) →
      ((generate_predictions env ident h now).predictions.get? i).map
          (fun o => (o.predicted_price, o.error)) =
        some (none, some "Prediction failed for this period") := by
  refine ⟨predictions_length env ident h now, rfl,
    successful_le_total env ident h now, rfl, fun i hi hfail => ?_⟩
  rw [predictions_get? env ident h now hi]
  simp only [Option.map_some']
  rcases hfail with hf | hf <;>
    simp [mkPrediction, hm, hf]

/-- Witness for C3 at envMix (raises at month 2, returns 5.0 elsewhere),
h = 3: period 2 fails, the batch still has 3 outcomes and success = true. -/
theorem claim_C3_witness :
    (generate_predictions envMix identDemo 3 "T").predictions.length = 3 ∧
    (generate_predictions envMix identDemo 3 "T").success = true ∧
    ((generate_predictions envMix identDemo 3 "T").predictions.get? 1).map
        (fun o => (o.predicted_price, o.error)) =
      some (none, some "Prediction failed for this period") := by
  have hc := claim_C3 envMix identDemo 3 "T" rfl
  exact ⟨hc.1, hc.2.1, hc.2.2.2.2 1 (by decide) (Or.inl rfl)⟩

/-- Claim C4: statistics are computed only over outcomes carrying a price.
If no price is present, min, max and avg are absent and trend = "unknown";
otherwise min and max are the minimum and maximum of the prices, avg is
their sum divided by their count rounded to 2 decimal places, and trend is
"increasing" when at least two prices exist and the last strictly exceeds
the first, "decreasing" when at least two exist and the last is strictly
below the first, and "stable" otherwise — in particular a single price
gives "stable", never "unknown". -/
theorem claim_C4 (l : List Prediction) :
    (pricesOf l = [] →
      compute_statistics l = ⟨none, none, none, "unknown"⟩) ∧
    (pricesOf l ≠ [] →
      ∃ m x, (compute_statistics l).min_price = some m ∧
        (compute_statistics l).max_price = some x ∧
        m ∈ pricesOf l ∧ x ∈ pricesOf l ∧
        (∀ q ∈ pricesOf l, m ≤ q ∧ q ≤ x) ∧
        (compute_statistics l).avg_price =
          some (pyRound2 ((pricesOf l).sum / ((pricesOf l).length : ℚ))) ∧
        (compute_statistics l).price_trend ≠ "unknown") ∧
    ((pricesOf l).length = 1 → (compute_statistics l).price_trend = "stable") ∧
    (2 ≤ (pricesOf l).length →
      ((compute_statistics l).price_trend = "increasing" ↔
        (pricesOf l).headD 0 < (pricesOf l).getLastD 0) ∧
      ((compute_statistics l).price_trend = "decreasing" ↔
        (pricesOf l).getLastD 0 < (pricesOf l).headD 0) ∧
      ((compute_statistics l).price_trend = "stable" ↔
        (pricesOf l).getLastD 0 = (pricesOf l).headD 0)) := by
  haveI : Std.Antisymm ((· : ℚ) ≤ ·) := ⟨fun h1 h2 => le_antisymm h1 h2⟩
  rcases hp : pricesOf l with _ | ⟨p, ps⟩
  · refine ⟨fun _ => ?_, fun hne => absurd rfl hne,
      fun h1 => by simp at h1, fun h2 => by simp at h2⟩
    unfold compute_statistics
    rw [hp]
  · have hstat : compute_statistics l =
        { min_price := some (ps.foldl min p)
          max_price := some (ps.foldl max p)
          avg_price := some (pyRound2 ((p :: ps).sum / ((p :: ps).length : ℚ)))
          price_trend :=
            if 1 < (p :: ps).length ∧ p < ps.getLastD p then "increasing"
            else if 1 < (p :: ps).length ∧ ps.getLastD p < p then "decreasing"
            else "stable" } := by
      unfold compute_statistics
      rw [hp]
    have hmin := (List.min?_eq_some_iff (fun a : ℚ => le_refl a) min_choice
      (fun _ _ _ => le_min_iff)).mp
      (rfl : (p :: ps).min? = some (ps.foldl min p))
    have hmax := (List.max?_eq_some_iff (fun a : ℚ => le_refl a) max_choice
      (fun _ _ _ => max_le_iff)).mp
      (rfl : (p :: ps).max? = some (ps.foldl max p))
    refine ⟨?_, ?_, ?_, ?_⟩
    · intro he
      exact absurd he (List.cons_ne_nil p ps)
    · intro _
      refine ⟨ps.foldl min p, ps.foldl max p, by rw [hstat], by rw [hstat],
        hmin.1, hmax.1, fun q hq => ⟨hmin.2 q hq, hmax.2 q hq⟩,
        by rw [hstat], ?_⟩
      rw [hstat]
      split_ifs <;> intro hco <;> simp at hco
    · intro h1
      have hnil : ps = [] := by
        simpa using h1
      subst hnil
      rw [hstat]
      simp
    · intro h2
      have hlen : 1 < (p :: ps).length := by
        simp only [List.length_cons] at h2 ⊢
        omega
      rw [List.headD_cons, List.getLastD_cons]
      rcases lt_trichotomy p (ps.getLastD p) with hcmp | hcmp | hcmp
      · have ht : (compute_statistics l).price_trend = "increasing" := by
          rw [hstat, if_pos ⟨hlen, hcmp⟩]
        rw [ht]
        exact ⟨iff_of_true rfl hcmp,
          iff_of_false (by decide) (lt_asymm hcmp),
          iff_of_false (by decide) hcmp.ne'⟩
      · have h1c : ¬(1 < (p :: ps).length ∧ p < ps.getLastD p) :=
          fun hc => absurd hc.2 (by rw [← hcmp]; exact lt_irrefl p)
        have h2c : ¬(1 < (p :: ps).length ∧ ps.getLastD p < p) :=
          fun hc => absurd hc.2 (by rw [← hcmp]; exact lt_irrefl p)
        have ht : (compute_statistics l).price_trend = "stable" := by
          rw [hstat, if_neg h1c, if_neg h2c]
        rw [ht]
        exact ⟨iff_of_false (by decide) (by rw [← hcmp]; exact lt_irrefl p),
          iff_of_false (by decide) (by rw [← hcmp]; exact lt_irrefl p),
          iff_of_true rfl hcmp.symm⟩
      · have h1c : ¬(1 < (p :: ps).length ∧ p < ps.getLastD p) :=
          fun hc => absurd hc.2 (lt_asymm hcmp)
        have ht : (compute_statistics l).price_trend = "decreasing" := by
          rw [hstat, if_neg h1c, if_pos ⟨hlen, hcmp⟩]
        rw [ht]
        exact ⟨iff_of_false (by decide) (lt_asymm hcmp),
          iff_of_true rfl hcmp,
          iff_of_false (by decide) hcmp.ne⟩

/-- Witness for C4: a batch whose single successful price yields the
"stable" trend. -/
theorem claim_C4_witness :
    (compute_statistics
      [⟨1, 2024, 1, "2024-01", some 7, "USD", none⟩,
       ⟨2, 2024, 2, "2024-02", none, "USD",
         some "Prediction failed for this period"⟩]).price_trend = "stable" :=
  (claim_C4 _).2.2.1 (by decide)

/-- The missing-parameter list built by successive appends at source lines
121-131 equals the declarative filter over the five canonical names. -/
theorem missing_of_spec (data : Payload) :
    missing_of data =
      (if pyStrip (data.product_type.getD "") = "" then ["product_type"] else []) ++
      (if pyStrip (data.tg_code.getD "") = "" then ["tg_code"] else []) ++
      (if pyStrip (data.country_region.getD "") = "" then ["country_region"] else []) ++
      (if pyStrip (data.country.getD "") = "" then ["country"] else []) ++
      (if pyStrip (data.industry.getD "") = "" then ["industry"] else []) := by
  unfold missing_of
  simp only [List.filterMap_cons, List.filterMap_nil]
  split_ifs <;> simp

/-- Claim C5: whenever at least one identity field is absent or trims to
empty, the request fails with a single message listing all missing field
names, regardless of the horizon_window value — horizon parsing is only
reached once all five identity fields are present. -/
theorem claim_C5 (env : Env) (data : Payload) (now : String) (hv : Option PyVal)
    (hmiss : missing_of data ≠ []) :
    process_prediction_request env { data with horizon_window := hv } now =
      .failure ("Missing required parameters: " ++
        String.intercalate ", " (missing_of data)) now := by
  have hms := missing_of_spec data
  simp only [process_prediction_request]
  rw [← hms, if_pos hmiss]

/-- Witness for C5: both product_type (blank) and country (absent) are
reported together, with a bad horizon left unmentioned. -/
theorem claim_C5_witness :
    process_prediction_request envSim
      ⟨some "  ", some "TG1", some "EMEA", none, some "Automotive",
        some (.pyStr "abc")⟩ "T" =
      .failure "Missing required parameters: product_type, country" "T" := by
  have h := claim_C5 envSim
    ⟨some "  ", some "TG1", some "EMEA", none, some "Automotive",
      some (.pyStr "abc")⟩ "T" (some (.pyStr "abc")) (by decide)
  exact h.trans (by decide)

/-- With all five identity fields present and non-blank, processing reduces
to the horizon_window conversion and range check. -/
theorem process_valid_fields (env : Env) (now : String)
    (pt tg cr co ind : String) (hv : Option PyVal)
    (hpt : pyStrip pt ≠ "") (htg : pyStrip tg ≠ "") (hcr : pyStrip cr ≠ "")
    (hco : pyStrip co ≠ "") (hind : pyStrip ind ≠ "") :
    process_prediction_request env
        ⟨some pt, some tg, some cr, some co, some ind, hv⟩ now =
      match pyToInt (hv.getD (.pyInt 1)) with
      | none => .failure "horizon_window must be a valid integer" now
      | some h =>
        if h < 1 ∨ 24 < h then
          .failure "horizon_window must be between 1 and 24 months" now
        else
          .ok (generate_predictions env
            ⟨pyStrip pt, pyStrip tg, pyStrip cr, pyStrip co, pyStrip ind⟩ h.toNat now) := by
  simp [process_prediction_request, hpt, htg, hcr, hco, hind]

/-- Claim C6: with all identity fields present, horizon_window 0 and 25
fail the range check, the string "abc" fails integer conversion, an absent
horizon_window defaults to 1 and proceeds, and every integer 1..24 is
accepted. -/
theorem claim_C6 (env : Env) (now : String) (pt tg cr co ind : String)
    (hpt : pyStrip pt ≠ "") (htg : pyStrip tg ≠ "") (hcr : pyStrip cr ≠ "")
    (hco : pyStrip co ≠ "") (hind : pyStrip ind ≠ "") :
    (process_prediction_request env
        ⟨some pt, some tg, some cr, some co, some ind, some (.pyInt 0)⟩ now =
      .failure "horizon_window must be between 1 and 24 months" now) ∧
    (process_prediction_request env
        ⟨some pt, some tg, some cr, some co, some ind, some (.pyInt 25)⟩ now =
      .failure "horizon_window must be between 1 and 24 months" now) ∧
    (process_prediction_request env
        ⟨some pt, some tg, some cr, some co, some ind, some (.pyStr "abc")⟩ now =
      .failure "horizon_window must be a valid integer" now) ∧
    (process_prediction_request env
        ⟨some pt, some tg, some cr, some co, some ind, none⟩ now =
      .ok (generate_predictions env
        ⟨pyStrip pt, pyStrip tg, pyStrip cr, pyStrip co, pyStrip ind⟩ 1 now)) ∧
    (∀ n : ℤ, 1 ≤ n → n ≤ 24 →
      process_prediction_request env
          ⟨some pt, some tg, some cr, some co, some ind, some (.pyInt n)⟩ now =
        .ok (generate_predictions env
          ⟨pyStrip pt, pyStrip tg, pyStrip cr, pyStrip co, pyStrip ind⟩ n.toNat now)) := by
  refine ⟨?_, ?_, ?_, ?_, fun n hn1 hn2 => ?_⟩ <;>
    rw [process_valid_fields env now pt tg cr co ind _ hpt htg hcr hco hind]
  · rfl
  · rfl
  · rfl
  · rfl
  · show (if n < 1 ∨ 24 < n then _ else _) = _
    rw [if_neg (by omega)]

/-- Witness for C6: concrete identity, horizon 25 rejected and horizon 3
accepted. -/
theorem claim_C6_witness :
    (process_prediction_request envSim
        ⟨some "steel", some "TG1", some "EMEA", some "Germany",
          some "Automotive", some (.pyInt 25)⟩ "T" =
      .failure "horizon_window must be between 1 and 24 months" "T") ∧
    (process_prediction_request envSim
        ⟨some "steel", some "TG1", some "EMEA", some "Germany",
          some "Automotive", some (.pyInt 3)⟩ "T" =
      .ok (generate_predictions envSim
        ⟨"steel", "TG1", "EMEA", "Germany", "Automotive"⟩ 3 "T")) := by
  have h := claim_C6 envSim "T" "steel" "TG1" "EMEA" "Germany" "Automotive"
    (by decide) (by decide) (by decide) (by decide) (by decide)
  exact ⟨h.1, (h.2.2.2.2 3 (by decide) (by decide)).trans (by rfl)⟩

/-- With the simulation fallback active, the prediction for month offset i
is fully determined: price round(20.0 + i*0.5, 2), no error. -/
theorem mkPrediction_sim (env : Env) (ident : Identity) (i : ℕ)
    (hm : env.modelLoaded = false) :
    mkPrediction env ident i =
      { period := i + 1
        year := 2024 + i / 12
        month := i % 12 + 1
        date := dateLabel (2024 + i / 12) (i % 12 + 1)
        predicted_price := some (pyRound2 (20 + (i : ℚ) * (1 / 2)))
        currency := "USD"
        error := none } := by
  simp [mkPrediction, hm]

/-- Claim C7: with the simulation provider active the price for period p is
round(20.0 + (p-1)*0.5, 2) and no period carries an error; for
horizon_window = 3 the prices are [20.0, 20.5, 21.0] with min 20.0,
max 21.0, avg 20.5 and trend "increasing"; the result carries
model_used = "simulation" and an advisory note present only in the
simulation case. -/
theorem claim_C7 (env : Env) (ident : Identity) (h : ℕ) (now : String)
    (hm : env.modelLoaded = false) :
    (∀ i, i < h →
      ((generate_predictions env ident h now).predictions.get? i).map
          (fun o => (o.predicted_price, o.error)) =
        some (some (pyRound2 (20 + (i : ℚ) * (1 / 2))), none)) ∧
    (generate_predictions env ident h now).model_used = "simulation" ∧
    (generate_predictions env ident h now).note =
      some "Using simulated data. Deploy with model files for real predictions." ∧
    (∀ env2 : Env, env2.modelLoaded = true →
      (generate_predictions env2 ident h now).note = none) ∧
    ((generate_predictions env ident 3 now).predictions.map
        (fun o => o.predicted_price) =
      [some 20, some (41 / 2), some 21]) ∧
    (generate_predictions env ident 3 now).price_statistics =
      { min_price := some 20, max_price := some 21, avg_price := some (41 / 2),
        price_trend := "increasing" } := by
  have hl : (generate_predictions env ident 3 now).predictions =
      [mkPrediction env ident 0, mkPrediction env ident 1,
        mkPrediction env ident 2] := rfl
  have r0 : pyRound2 (20 + ((0 : ℕ) : ℚ) * (1 / 2)) = 20 := by
    rw [pyRound2, round_eq]
    norm_num
  have r1 : pyRound2 (20 + ((1 : ℕ) : ℚ) * (1 / 2)) = 41 / 2 := by
    rw [pyRound2, round_eq]
    norm_num
  have r2 : pyRound2 (20 + ((2 : ℕ) : ℚ) * (1 / 2)) = 21 := by
    rw [pyRound2, round_eq]
    norm_num
  refine ⟨fun i hi => ?_, ?_, ?_, fun env2 hm2 => ?_, ?_, ?_⟩
  · rw [predictions_get? env ident h now hi, Option.map_some',
      mkPrediction_sim env ident i hm]
  · simp [generate_predictions, hm]
  · simp [generate_predictions, hm]
  · simp [generate_predictions, hm2]
  · simp [hl, mkPrediction_sim env ident 0 hm, mkPrediction_sim env ident 1 hm,
      mkPrediction_sim env ident 2 hm, r0, r1, r2]
    norm_num [pyRound2, round_eq]
  · have hc : (generate_predictions env ident 3 now).price_statistics =
        compute_statistics [mkPrediction env ident 0, mkPrediction env ident 1,
          mkPrediction env ident 2] := rfl
    have hpr : pricesOf [mkPrediction env ident 0, mkPrediction env ident 1,
        mkPrediction env ident 2] = [20, 41 / 2, 21] := by
      simp [pricesOf, successful_of, mkPrediction_sim env ident 0 hm,
        mkPrediction_sim env ident 1 hm, mkPrediction_sim env ident 2 hm,
        r0, r1, r2]
      norm_num [pyRound2, round_eq]
    rw [hc]
    unfold compute_statistics
    rw [hpr]
    norm_num [List.foldl, List.getLastD, min_def, max_def, pyRound2, round_eq]

/-- Witness for C7 at the concrete simulation environment. -/
theorem claim_C7_witness :
    (generate_predictions envSim identDemo 3 "T").model_used = "simulation" ∧
    (generate_predictions envSim identDemo 3 "T").price_statistics =
      { min_price := some 20, max_price := some 21, avg_price := some (41 / 2),
        price_trend := "increasing" } :=
  ⟨(claim_C7 envSim identDemo 3 "T" rfl).2.1,
   (claim_C7 envSim identDemo 3 "T" rfl).2.2.2.2.2⟩

/-- Counterexample to C8 as stated: two runs of the simulation provider on
identical valid input, performed at different clock readings, differ in the
full result payload (the timestamp field changes between repetitions). -/
theorem claim_C8_counterexample :
    generate_predictions envSim identDemo 1 "2024-05-01T10:00:00" ≠
      generate_predictions envSim identDemo 1 "2024-05-01T10:00:01" := by
  intro hEq
  exact absurd (congrArg Response.timestamp hEq) (by decide)

/-- Claim C8 as amended: for a valid request to the simulation provider,
every field of the result other than the timestamp is identical across
repetitions — the output is a pure function of the input and the clock. -/
theorem claim_C8_amended (env : Env) (ident : Identity) (h : ℕ)
    (now1 now2 : String) (hm : env.modelLoaded = false)
    (h1 : 1 ≤ h) (h2 : h ≤ 24) :
    stripTimestamp (generate_predictions env ident h now1) =
      stripTimestamp (generate_predictions env ident h now2) := rfl

/-- Witness for the amended C8 at two distinct clock readings. -/
theorem claim_C8_amended_witness :
    stripTimestamp (generate_predictions envSim identDemo 3 "2024-05-01T10:00:00") =
      stripTimestamp (generate_predictions envSim identDemo 3 "2024-05-01T10:00:01") :=
  claim_C8_amended envSim identDemo 3 "2024-05-01T10:00:00" "2024-05-01T10:00:01"
    rfl (by decide) (by decide)

/-- Claim C9: with the model provider active, a collaborator return value of
0 (or 0.0 — both are the rational 0) is recorded as a failed period, price
absent and error populated, because the success test is a truthiness check
on the returned value. -/
theorem claim_C9 (env : Env) (ident : Identity) (h : ℕ) (now : String) (i : ℕ)
    (hm : env.modelLoaded = true) (hi : i < h)
    (hz : env.model ident (2024 + i / 12) (i % 12 + 1) = .returns (some 0)) :
    ((generate_predictions env ident h now).predictions.get? i).map
        (fun o => (o.predicted_price, o.error)) =
      some (none, some "Prediction failed for this period") := by
  rw [predictions_get? env ident h now hi, Option.map_some']
  simp [mkPrediction, hm, hz]

/-- Witness for C9: a collaborator that always returns 0.0 produces a failed
first period. -/
theorem claim_C9_witness :
    ((generate_predictions envZero identDemo 1 "T").predictions.get? 0).map
        (fun o => (o.predicted_price, o.error)) =
      some (none, some "Prediction failed for this period") :=
  claim_C9 envZero identDemo 1 "T" 0 rfl (by decide) rfl

/-- Claim C10: a horizon_window supplied as a non-integral number (2.9, or a
boolean) is not rejected as an invalid horizon: int() truncates it toward
zero and the range check applies to the truncated value, so 2.9 is accepted
and forecasts 2 periods while the string "2.9" is rejected. -/
theorem claim_C10 (env : Env) (now : String) (pt tg cr co ind : String)
    (hpt : pyStrip pt ≠ "") (htg : pyStrip tg ≠ "") (hcr : pyStrip cr ≠ "")
    (hco : pyStrip co ≠ "") (hind : pyStrip ind ≠ "") :
    (∀ q : ℚ,
      process_prediction_request env
          ⟨some pt, some tg, some cr, some co, some ind, some (.pyFloat q)⟩ now =
        if 1 ≤ pyTrunc q ∧ pyTrunc q ≤ 24 then
          .ok (generate_predictions env
            ⟨pyStrip pt, pyStrip tg, pyStrip cr, pyStrip co, pyStrip ind⟩
            (pyTrunc q).toNat now)
        else .failure "horizon_window must be between 1 and 24 months" now) ∧
    (∀ b : Bool,
      process_prediction_request env
          ⟨some pt, some tg, some cr, some co, some ind, some (.pyBool b)⟩ now =
        if b then
          .ok (generate_predictions env
            ⟨pyStrip pt, pyStrip tg, pyStrip cr, pyStrip co, pyStrip ind⟩ 1 now)
        else .failure "horizon_window must be between 1 and 24 months" now) ∧
    (process_prediction_request env
        ⟨some pt, some tg, some cr, some co, some ind,
          some (.pyFloat (29 / 10))⟩ now =
      .ok (generate_predictions env
        ⟨pyStrip pt, pyStrip tg, pyStrip cr, pyStrip co, pyStrip ind⟩ 2 now)) ∧
    ((generate_predictions env
        ⟨pyStrip pt, pyStrip tg, pyStrip cr, pyStrip co, pyStrip ind⟩
        2 now).total_predictions = 2) ∧
    (process_prediction_request env
        ⟨some pt, some tg, some cr, some co, some ind, some (.pyStr "2.9")⟩ now =
      .failure "horizon_window must be a valid integer" now) := by
  refine ⟨fun q => ?_, fun b => ?_, ?_, ?_, ?_⟩
  · rw [process_valid_fields env now pt tg cr co ind _ hpt htg hcr hco hind]
    show (if pyTrunc q < 1 ∨ 24 < pyTrunc q then _ else _) = _
    by_cases hq : 1 ≤ pyTrunc q ∧ pyTrunc q ≤ 24
    · rw [if_neg (by omega), if_pos hq]
    · rw [if_pos (by omega), if_neg hq]
  · rw [process_valid_fields env now pt tg cr co ind _ hpt htg hcr hco hind]
    cases b <;> rfl
  · rw [process_valid_fields env now pt tg cr co ind _ hpt htg hcr hco hind]
    have htr : pyTrunc ((29 : ℚ) / 10) = 2 := by
      rw [pyTrunc, if_pos (by norm_num)]
      norm_num
    rw [show pyToInt ((some (PyVal.pyFloat (29 / 10))).getD (.pyInt 1)) =
      some 2 from by rw [show pyToInt ((some (PyVal.pyFloat (29 / 10))).getD
        (.pyInt 1)) = some (pyTrunc ((29 : ℚ) / 10)) from rfl, htr]]
    rfl
  · simp [generate_predictions]
  · rw [process_valid_fields env now pt tg cr co ind _ hpt htg hcr hco hind]
    rw [show pyToInt ((some (PyVal.pyStr "2.9")).getD (.pyInt 1)) =
      none from by decide]

/-- Witness for C10: the float 2.9 is accepted and forecasts 2 periods. -/
theorem claim_C10_witness :
    process_prediction_request envSim
        ⟨some "steel", some "TG1", some "EMEA", some "Germany",
          some "Automotive", some (.pyFloat (29 / 10))⟩ "T" =
      .ok (generate_predictions envSim
        ⟨"steel", "TG1", "EMEA", "Germany", "Automotive"⟩ 2 "T") := by
  have h := claim_C10 envSim "T" "steel" "TG1" "EMEA" "Germany" "Automotive"
    (by decide) (by decide) (by decide) (by decide) (by decide)
  exact h.2.2.1.trans (by rfl)

end MpiApi
